import Mathlib

set_option linter.unusedVariables false
set_option maxRecDepth 100000

/-!
Shallow embedding of the Cloak server user panel
(`internal/server/usermanager/userpanel.go`).

The ledger store (boltdb) is modelled as an association list from raw bucket
keys (byte lists) to buckets, a bucket being an association list from field
names to stored byte strings.  Each Go `db.Update`/`db.View` body is translated
as a pure function on this store; a transaction error makes the function return
the original store (bolt rolls partial state back).  A Go runtime panic
(`binary.BigEndian.Uint32/64` on a nil or short slice) is modelled by the
distinguished outcome `Res.crash`, kept apart from returned Go errors.
-/

/-- A byte string: a list of naturals, each intended to be `< 256`. -/
abbrev Bytes : Type := List Nat

/-- A bolt bucket: field name to stored value. -/
abbrev Bucket : Type := List (String × Bytes)

/-- The embedded bolt database: raw bucket key to bucket. -/
abbrev DB : Type := List (Bytes × Bucket)

/-- Association-list lookup: the first entry with the given key, if any. -/
def aGet {κ α : Type} [DecidableEq κ] : List (κ × α) → κ → Option α
  | [], _ => none
  | p :: rest, k => if p.1 = k then some p.2 else aGet rest k

/-- Association-list overwrite: the bolt `Put` semantics (replace or insert). -/
def aPut {κ α : Type} [DecidableEq κ] (l : List (κ × α)) (k : κ) (v : α) : List (κ × α) :=
  (k, v) :: l.filter (fun p => decide (p.1 ≠ k))

/-- Association-list removal of a key: the bolt `DeleteBucket` / Go map
`delete` semantics. -/
def aDel {κ α : Type} [DecidableEq κ] (l : List (κ × α)) (k : κ) : List (κ × α) :=
  l.filter (fun p => decide (p.1 ≠ k))

/-- Go errors returned by the user panel and by bolt. -/
inductive GoErr where
  | userNotFound
  | userNotActive
  | bucketExists
  | bucketNameRequired
  | bucketNotFound
  | backupOverwrite
deriving DecidableEq

/-- Outcome of a panel operation.  `crash` models a Go runtime panic (an index
out of range inside `binary.BigEndian.Uint32/64` on a missing or short stored
field); it is distinct from every returned Go error. -/
inductive Res (α : Type) where
  | ok : α → Res α
  | err : GoErr → Res α
  | crash : Res α
deriving DecidableEq

/-- Big-endian bytes of `n`, `w` bytes wide (the value is taken mod `256 ^ w`),
as written by `binary.BigEndian.PutUint32/PutUint64`. -/
def natToBytesBE : Nat → Nat → Bytes
  | 0, _ => []
  | w + 1, n => natToBytesBE w (n / 256) ++ [n % 256]

/-- Big-endian value of a byte string. -/
def bytesToNat (l : Bytes) : Nat :=
  l.foldl (fun acc b => acc * 256 + b) 0

/-- `binary.BigEndian.Uint32` applied to `b.Get(...)`: Go panics (models as
`none`) when the slice is nil (field absent) or shorter than 4 bytes, and
otherwise decodes the first 4 bytes. -/
def goUint32 : Option Bytes → Option Nat
  | none => none
  | some l => if 4 ≤ l.length then some (bytesToNat (l.take 4)) else none

/-- `binary.BigEndian.Uint64` applied to `b.Get(...)`: Go panics (modelled as
`none`) when the slice is nil (field absent) or shorter than 8 bytes, and
otherwise decodes the first 8 bytes. -/
def goUint64 : Option Bytes → Option Nat
  | none => none
  | some l => if 8 ≤ l.length then some (bytesToNat (l.take 8)) else none

/-- Go `uint64(value)` for an int64 `value`: the two's-complement unsigned
reinterpretation, i.e. the value mod `2 ^ 64`. -/
def i64ToU64 (v : Int) : Nat :=
  (v % (2 ^ 64 : Int)).toNat

/-- Go `int64(u)` for a uint64 `u`: the two's-complement signed
reinterpretation. -/
def u64ToI64 (n : Nat) : Int :=
  if n < 2 ^ 63 then (n : Int) else (n : Int) - 2 ^ 64

/-- Wrap-around of an unbounded integer into the int64 range, i.e. Go's
(defined) int64 overflow behaviour. -/
def i64wrap (v : Int) : Int :=
  u64ToI64 (i64ToU64 v)

/-- `v` fits in a signed 64-bit integer. -/
def isI64 (v : Int) : Prop :=
  -(2 ^ 63) ≤ v ∧ v < 2 ^ 63

instance (v : Int) : Decidable (isI64 v) := by
  unfold isI64; infer_instance

/-- `n` fits in an unsigned 32-bit integer. -/
def isU32 (n : Nat) : Prop :=
  n < 2 ^ 32

instance (n : Nat) : Decidable (isU32 n) := by
  unfold isU32; infer_instance

/-- `u32ToB` of userpanel.go: a freshly allocated 4-byte big-endian buffer. -/
def u32ToB (value : Nat) : Bytes :=
  natToBytesBE 4 value

/-- `i64ToB` of userpanel.go: a freshly allocated 8-byte big-endian buffer of
the unsigned reinterpretation of the int64. -/
def i64ToB (value : Int) : Bytes :=
  natToBytesBE 8 (i64ToU64 value)

/-- The persisted `UserInfo` record of userpanel.go.  `SessionsCap` is a
uint32 (`Nat` below `2 ^ 32`); the five other numeric fields are int64
(`Int` in the int64 range). -/
structure UserInfo where
  UID : Bytes
  SessionsCap : Nat
  UpRate : Int
  DownRate : Int
  UpCredit : Int
  DownCredit : Int
  ExpiryTime : Int
deriving DecidableEq

/-- `copy(arrUID[:], UID)` into a zeroed 32-byte array: the UID truncated to
32 bytes and right-padded with zero bytes. -/
def pad32 (uid : Bytes) : Bytes :=
  uid.take 32 ++ List.replicate (32 - uid.length) 0

/-- Modelled from the spec: the live `User` object (the `User` type with its
valve lives in a file of this repository that is not under src/; only its
callers in userpanel.go are).  Per the spec it holds the 32-byte key, the live
rate/cap/expiry parameters, and a valve whose `RxCredit`/`TxCredit` counters
are initialised from `UpCredit`/`DownCredit`. -/
structure User where
  UID : Bytes
  arrUID : Bytes
  sessionsCap : Nat
  upRate : Int
  downRate : Int
  rxCredit : Int
  txCredit : Int
  expiryTime : Int
deriving DecidableEq

/-- Modelled from the spec: `MakeUser` constructs the live User from a
`UserInfo`, valve credits initialised from `UpCredit`/`DownCredit` (the
panel back-reference of the Go constructor is dropped). -/
def MakeUser (uinfo : UserInfo) : User :=
  { UID := uinfo.UID
    arrUID := pad32 uinfo.UID
    sessionsCap := uinfo.SessionsCap
    upRate := uinfo.UpRate
    downRate := uinfo.DownRate
    rxCredit := uinfo.UpCredit
    txCredit := uinfo.DownCredit
    expiryTime := uinfo.ExpiryTime }

/-- Modelled from the spec: `(*User).setSessionsCap`. -/
def userSetSessionsCap (u : User) (cap : Nat) : User :=
  { u with sessionsCap := cap }

/-- Modelled from the spec: `(*User).setUpRate`. -/
def userSetUpRate (u : User) (rate : Int) : User :=
  { u with upRate := rate }

/-- Modelled from the spec: `(*User).setDownRate`. -/
def userSetDownRate (u : User) (rate : Int) : User :=
  { u with downRate := rate }

/-- Modelled from the spec: `(*User).setUpCredit` writes the valve's upload
credit counter. -/
def userSetUpCredit (u : User) (n : Int) : User :=
  { u with rxCredit := n }

/-- Modelled from the spec: `(*User).setDownCredit` writes the valve's
download credit counter. -/
def userSetDownCredit (u : User) (n : Int) : User :=
  { u with txCredit := n }

/-- Modelled from the spec: `(*User).setExpiryTime`. -/
def userSetExpiryTime (u : User) (t : Int) : User :=
  { u with expiryTime := t }

/-- Modelled from the spec: `(*User).addUpCredit` is a signed add on the live
valve counter (int64, hence wrapping). -/
def userAddUpCredit (u : User) (delta : Int) : User :=
  { u with rxCredit := i64wrap (u.rxCredit + delta) }

/-- Modelled from the spec: `(*User).addDownCredit` is a signed add on the
live valve counter (int64, hence wrapping). -/
def userAddDownCredit (u : User) (delta : Int) : User :=
  { u with txCredit := i64wrap (u.txCredit + delta) }

/-- Modelled from the spec: `(*User).updateInfo` reloads every live field
from a `UserInfo` (used by `syncMemFromDB`). -/
def userUpdateInfo (u : User) (uinfo : UserInfo) : User :=
  MakeUser uinfo

/-- The `Userpanel` state: the bolt database, the backup directory (its path
and its current files, each file holding the store image written to it), and
the active-user map keyed by the padded 32-byte UID. -/
structure Userpanel where
  db : DB
  bakRoot : String
  files : List (String × DB)
  activeUsers : List (Bytes × User)
deriving DecidableEq

/-- The common bolt `View` body of `GetAndActivateUser`, `listAllUsers`,
`getUserInfo` and `syncMemFromDB`: decode the seven fields of a bucket,
`none` when some field is absent or too short (where Go panics). -/
def decodeBucket (UID : Bytes) (b : Bucket) : Option UserInfo :=
  (goUint32 (aGet b "SessionsCap")).bind fun sc =>
  (goUint64 (aGet b "UpRate")).bind fun ur =>
  (goUint64 (aGet b "DownRate")).bind fun dr =>
  (goUint64 (aGet b "UpCredit")).bind fun uc =>
  (goUint64 (aGet b "DownCredit")).bind fun dc =>
  (goUint64 (aGet b "ExpiryTime")).map fun et =>
  { UID := UID
    SessionsCap := sc
    UpRate := u64ToI64 ur
    DownRate := u64ToI64 dr
    UpCredit := u64ToI64 uc
    DownCredit := u64ToI64 dc
    ExpiryTime := u64ToI64 et }

/-- `getUserInfo` of userpanel.go: read all seven fields of the bucket at the
raw UID key. -/
def getUserInfo (db : DB) (UID : Bytes) : Res UserInfo :=
  match aGet db UID with
  | none => Res.err GoErr.userNotFound
  | some b =>
    match decodeBucket UID b with
    | none => Res.crash
    | some uinfo => Res.ok uinfo

/-- `getActiveUser` of userpanel.go: read-only lookup of the active-user map
at the padded 32-byte key. -/
def getActiveUser (up : Userpanel) (UID : Bytes) : Option User :=
  aGet up.activeUsers (pad32 UID)

/-- `delActiveUser` of userpanel.go: remove the active-user entry at the
padded 32-byte key. -/
def delActiveUser (up : Userpanel) (UID : Bytes) : Userpanel :=
  { up with activeUsers := aDel up.activeUsers (pad32 UID) }

/-- `GetAndActivateUser` of userpanel.go: return the cached live user if the
padded UID is active; otherwise load the bucket at the raw UID key, construct
a `User` from the stored fields, install it under the padded key and return
it; on a missing bucket return `ErrUserNotFound` installing nothing. -/
def GetAndActivateUser (up : Userpanel) (UID : Bytes) : Res User × Userpanel :=
  match aGet up.activeUsers (pad32 UID) with
  | some user => (Res.ok user, up)
  | none =>
    match aGet up.db UID with
    | none => (Res.err GoErr.userNotFound, up)
    | some b =>
      match decodeBucket UID b with
      | none => (Res.crash, up)
      | some uinfo =>
        (Res.ok (MakeUser uinfo),
          { up with activeUsers := aPut up.activeUsers (pad32 UID) (MakeUser uinfo) })

/-- The unbounded `UserInfo` literal synthesised by
`GetAndActivateAdminUser` (`1e9`, `1e12`, `1e15` constants of the source). -/
def adminUserInfo (AdminUID : Bytes) : UserInfo :=
  { UID := AdminUID
    SessionsCap := 1000000000
    UpRate := 1000000000000
    DownRate := 1000000000000
    UpCredit := 1000000000000000
    DownCredit := 1000000000000000
    ExpiryTime := 1000000000000000 }

/-- `GetAndActivateAdminUser` of userpanel.go: return the cached entry at the
padded key if present, otherwise synthesise the unbounded admin user in
memory and install it, never touching the database. -/
def GetAndActivateAdminUser (up : Userpanel) (AdminUID : Bytes) : User × Userpanel :=
  match aGet up.activeUsers (pad32 AdminUID) with
  | some user => (user, up)
  | none =>
    (MakeUser (adminUserInfo AdminUID),
      { up with activeUsers := aPut up.activeUsers (pad32 AdminUID) (MakeUser (adminUserInfo AdminUID)) })

/-- `updateDBEntryUint32` of userpanel.go: one bolt `Update` transaction
writing a freshly encoded uint32 to a field of the bucket at the raw UID key;
`ErrUserNotFound` (transaction rolled back) when the bucket is missing. -/
def updateDBEntryUint32 (db : DB) (UID : Bytes) (key : String) (value : Nat) : Res DB :=
  match aGet db UID with
  | none => Res.err GoErr.userNotFound
  | some b => Res.ok (aPut db UID (aPut b key (u32ToB value)))

/-- `updateDBEntryInt64` of userpanel.go: one bolt `Update` transaction
writing a freshly encoded int64 to a field of the bucket at the raw UID key;
`ErrUserNotFound` (transaction rolled back) when the bucket is missing. -/
def updateDBEntryInt64 (db : DB) (UID : Bytes) (key : String) (value : Int) : Res DB :=
  match aGet db UID with
  | none => Res.err GoErr.userNotFound
  | some b => Res.ok (aPut db UID (aPut b key (i64ToB value)))

/-- `setSessionsCap` of userpanel.go: write-through setter (DB first, then
the live user if active). -/
def setSessionsCap (up : Userpanel) (UID : Bytes) (cap : Nat) : Res Unit × Userpanel :=
  match updateDBEntryUint32 up.db UID "SessionsCap" cap with
  | Res.err e => (Res.err e, up)
  | Res.crash => (Res.crash, up)
  | Res.ok db2 =>
    match getActiveUser up UID with
    | none => (Res.ok (), { up with db := db2 })
    | some u =>
      (Res.ok (),
        { up with db := db2
                  activeUsers := aPut up.activeUsers (pad32 UID) (userSetSessionsCap u cap) })

/-- `setUpRate` of userpanel.go: write-through setter. -/
def setUpRate (up : Userpanel) (UID : Bytes) (rate : Int) : Res Unit × Userpanel :=
  match updateDBEntryInt64 up.db UID "UpRate" rate with
  | Res.err e => (Res.err e, up)
  | Res.crash => (Res.crash, up)
  | Res.ok db2 =>
    match getActiveUser up UID with
    | none => (Res.ok (), { up with db := db2 })
    | some u =>
      (Res.ok (),
        { up with db := db2
                  activeUsers := aPut up.activeUsers (pad32 UID) (userSetUpRate u rate) })

/-- `setDownRate` of userpanel.go: write-through setter. -/
def setDownRate (up : Userpanel) (UID : Bytes) (rate : Int) : Res Unit × Userpanel :=
  match updateDBEntryInt64 up.db UID "DownRate" rate with
  | Res.err e => (Res.err e, up)
  | Res.crash => (Res.crash, up)
  | Res.ok db2 =>
    match getActiveUser up UID with
    | none => (Res.ok (), { up with db := db2 })
    | some u =>
      (Res.ok (),
        { up with db := db2
                  activeUsers := aPut up.activeUsers (pad32 UID) (userSetDownRate u rate) })

/-- `setUpCredit` of userpanel.go: write-through setter. -/
def setUpCredit (up : Userpanel) (UID : Bytes) (n : Int) : Res Unit × Userpanel :=
  match updateDBEntryInt64 up.db UID "UpCredit" n with
  | Res.err e => (Res.err e, up)
  | Res.crash => (Res.crash, up)
  | Res.ok db2 =>
    match getActiveUser up UID with
    | none => (Res.ok (), { up with db := db2 })
    | some u =>
      (Res.ok (),
        { up with db := db2
                  activeUsers := aPut up.activeUsers (pad32 UID) (userSetUpCredit u n) })

/-- `setDownCredit` of userpanel.go: write-through setter. -/
def setDownCredit (up : Userpanel) (UID : Bytes) (n : Int) : Res Unit × Userpanel :=
  match updateDBEntryInt64 up.db UID "DownCredit" n with
  | Res.err e => (Res.err e, up)
  | Res.crash => (Res.crash, up)
  | Res.ok db2 =>
    match getActiveUser up UID with
    | none => (Res.ok (), { up with db := db2 })
    | some u =>
      (Res.ok (),
        { up with db := db2
                  activeUsers := aPut up.activeUsers (pad32 UID) (userSetDownCredit u n) })

/-- `setExpiryTime` of userpanel.go: write-through setter. -/
def setExpiryTime (up : Userpanel) (UID : Bytes) (t : Int) : Res Unit × Userpanel :=
  match updateDBEntryInt64 up.db UID "ExpiryTime" t with
  | Res.err e => (Res.err e, up)
  | Res.crash => (Res.crash, up)
  | Res.ok db2 =>
    match getActiveUser up UID with
    | none => (Res.ok (), { up with db := db2 })
    | some u =>
      (Res.ok (),
        { up with db := db2
                  activeUsers := aPut up.activeUsers (pad32 UID) (userSetExpiryTime u t) })

/-- `addUpCredit` of userpanel.go: one bolt `Update` transaction reading the
stored `UpCredit`, adding the signed delta (int64 arithmetic) and writing the
result back; then, on success, the same signed add on the live valve if the
user is active. -/
def addUpCredit (up : Userpanel) (UID : Bytes) (delta : Int) : Res Unit × Userpanel :=
  match aGet up.db UID with
  | none => (Res.err GoErr.userNotFound, up)
  | some b =>
    match goUint64 (aGet b "UpCredit") with
    | none => (Res.crash, up)
    | some old =>
      let db2 := aPut up.db UID
        (aPut b "UpCredit" (i64ToB (i64wrap (u64ToI64 old + delta))))
      match getActiveUser up UID with
      | none => (Res.ok (), { up with db := db2 })
      | some u =>
        (Res.ok (),
          { up with db := db2
                    activeUsers := aPut up.activeUsers (pad32 UID) (userAddUpCredit u delta) })

/-- `addDownCredit` of userpanel.go: the `DownCredit` twin of `addUpCredit`. -/
def addDownCredit (up : Userpanel) (UID : Bytes) (delta : Int) : Res Unit × Userpanel :=
  match aGet up.db UID with
  | none => (Res.err GoErr.userNotFound, up)
  | some b =>
    match goUint64 (aGet b "DownCredit") with
    | none => (Res.crash, up)
    | some old =>
      let db2 := aPut up.db UID
        (aPut b "DownCredit" (i64ToB (i64wrap (u64ToI64 old + delta))))
      match getActiveUser up UID with
      | none => (Res.ok (), { up with db := db2 })
      | some u =>
        (Res.ok (),
          { up with db := db2
                    activeUsers := aPut up.activeUsers (pad32 UID) (userAddDownCredit u delta) })

/-- The stored `UpCredit` of a UID's bucket as an int64, when the bucket
exists and the field decodes (the value `addUpCredit` itself reads). -/
def persistedUpCredit (db : DB) (UID : Bytes) : Option Int :=
  match aGet db UID with
  | none => none
  | some b => (goUint64 (aGet b "UpCredit")).map u64ToI64

/-- The stored `DownCredit` of a UID's bucket as an int64. -/
def persistedDownCredit (db : DB) (UID : Bytes) : Option Int :=
  match aGet db UID with
  | none => none
  | some b => (goUint64 (aGet b "DownCredit")).map u64ToI64

/-- The bucket written by `addNewUser`: the six fields, each a freshly
encoded buffer. -/
def newUserBucket (uinfo : UserInfo) : Bucket :=
  aPut (aPut (aPut (aPut (aPut (aPut []
    "SessionsCap" (u32ToB uinfo.SessionsCap))
    "UpRate" (i64ToB uinfo.UpRate))
    "DownRate" (i64ToB uinfo.DownRate))
    "UpCredit" (i64ToB uinfo.UpCredit))
    "DownCredit" (i64ToB uinfo.DownCredit))
    "ExpiryTime" (i64ToB uinfo.ExpiryTime)

/-- `addNewUser` of userpanel.go: one bolt `Update` transaction creating the
bucket at the raw UID key (bolt refuses an empty name or an existing bucket)
and writing all six fields. -/
def addNewUser (up : Userpanel) (uinfo : UserInfo) : Res Unit × Userpanel :=
  if uinfo.UID = [] then (Res.err GoErr.bucketNameRequired, up)
  else
    match aGet up.db uinfo.UID with
    | some _ => (Res.err GoErr.bucketExists, up)
    | none => (Res.ok (), { up with db := aPut up.db uinfo.UID (newUserBucket uinfo) })

/-- `backupDB` of userpanel.go: refuse to overwrite an existing file at
`bakRoot/bakFileName`; otherwise create the file and stream the consistent
store image into it inside a read transaction. -/
def backupDB (up : Userpanel) (bakFileName : String) : Res Unit × Userpanel :=
  match aGet up.files (up.bakRoot ++ "/" ++ bakFileName) with
  | some _ => (Res.err GoErr.backupOverwrite, up)
  | none => (Res.ok (), { up with files := aPut up.files (up.bakRoot ++ "/" ++ bakFileName) up.db })

/-- The standard base64 alphabet. -/
def b64Alphabet : List Char :=
  "ABCDEFGHIJKLMNOPQRSTUVWXYZabcdefghijklmnopqrstuvwxyz0123456789+/".toList

/-- The base64 digit of a 6-bit group. -/
def b64Char (n : Nat) : Char :=
  b64Alphabet.getD n 'A'

/-- `base64.StdEncoding.EncodeToString`: standard base64 with `=` padding. -/
def base64Std : Bytes → String
  | [] => ""
  | [a] =>
    String.mk [b64Char (a / 4 % 64), b64Char (a % 4 * 16), '=', '=']
  | [a, b] =>
    String.mk [b64Char (a / 4 % 64), b64Char (a % 4 * 16 + b / 16 % 16),
      b64Char (b % 16 * 4), '=']
  | a :: b :: c :: rest =>
    String.mk [b64Char (a / 4 % 64), b64Char (a % 4 * 16 + b / 16 % 16),
      b64Char (b % 16 * 4 + c / 64 % 4), b64Char (c % 64)] ++ base64Std rest

/-- The backup file basename generated by `delUser`:
`{unix_seconds}_pre_del_{base64Std(UID)}.bak`. -/
def delUserName (now : Int) (UID : Bytes) : String :=
  toString now ++ "_pre_del_" ++ base64Std UID ++ ".bak"

/-- The full path of the backup file `delUser` writes. -/
def delBakPath (up : Userpanel) (now : Int) (UID : Bytes) : String :=
  up.bakRoot ++ "/" ++ delUserName now UID

/-- `delUser` of userpanel.go: back up the whole store to the timestamped
file first (aborting everything if that file exists), and only then delete
the bucket at the raw UID key (bolt returns `ErrBucketNotFound` when it is
missing).  `now` is the wall clock `time.Now().Unix()`. -/
def delUser (up : Userpanel) (now : Int) (UID : Bytes) : Res Unit × Userpanel :=
  match backupDB up (delUserName now UID) with
  | (Res.ok _, up1) =>
    match aGet up1.db UID with
    | none => (Res.err GoErr.bucketNotFound, up1)
    | some _ => (Res.ok (), { up1 with db := aDel up1.db UID })
  | r => r

/-- `syncMemFromDB` of userpanel.go: reload all fields of the raw-key bucket,
then overwrite the live user if one is active (`ErrUserNotActive`
otherwise). -/
def syncMemFromDB (up : Userpanel) (UID : Bytes) : Res Unit × Userpanel :=
  match aGet up.db UID with
  | none => (Res.err GoErr.userNotFound, up)
  | some b =>
    match decodeBucket UID b with
    | none => (Res.crash, up)
    | some uinfo =>
      match getActiveUser up UID with
      | none => (Res.err GoErr.userNotActive, up)
      | some u =>
        (Res.ok (),
          { up with activeUsers := aPut up.activeUsers (pad32 UID) (userUpdateInfo u uinfo) })

/-- The per-user body of `updateCredits`: one bolt `Update` transaction that
writes the valve's `RxCredit` to `UpCredit` and `TxCredit` to `DownCredit`
of the bucket at the user's 32-byte key; a missing bucket makes the
transaction return `ErrUserNotFound` (discarded by the caller), leaving the
store unchanged. -/
def flushUser (db : DB) (u : User) : DB :=
  match aGet db u.arrUID with
  | none => db
  | some b =>
    aPut db u.arrUID
      (aPut (aPut b "UpCredit" (i64ToB u.rxCredit)) "DownCredit" (i64ToB u.txCredit))

/-- Flush every listed live user, one transaction each, errors discarded. -/
def flushAll (db : DB) (users : List User) : DB :=
  users.foldl flushUser db

/-- `updateCredits` of userpanel.go: one Credit Reconciler tick, flushing the
valve credits of every active user back to the store. -/
def updateCredits (up : Userpanel) : Userpanel :=
  { up with db := flushAll up.db (up.activeUsers.map (fun p => p.2)) }

/-- The generic write-through contract claimed for an admin setter: the DB
write happens first and alone on failure; on success the encoded value is in
the store and, exactly when the UID is active, the same value lands in the
live user. -/
def SetterSpec {α : Type} (setter : Userpanel → Bytes → α → Res Unit × Userpanel)
    (key : String) (enc : α → Bytes) (liveSet : User → α → User) : Prop :=
  ∀ (up : Userpanel) (UID : Bytes) (v : α),
    (aGet up.db UID = none →
      setter up UID v = (Res.err GoErr.userNotFound, up)) ∧
    (∀ b, aGet up.db UID = some b →
      (setter up UID v).1 = Res.ok () ∧
      (setter up UID v).2.db = aPut up.db UID (aPut b key (enc v)) ∧
      aGet (aPut b key (enc v)) key = some (enc v) ∧
      (getActiveUser up UID = none →
        (setter up UID v).2.activeUsers = up.activeUsers) ∧
      (∀ u, getActiveUser up UID = some u →
        getActiveUser (setter up UID v).2 UID = some (liveSet u v)))

/-- A panel over an empty store, no backups, no active users. -/
def basePanel : Userpanel :=
  { db := [], bakRoot := "db-backup", files := [], activeUsers := [] }

/-- A small concrete user record (scenario 1 of the spec, short UID). -/
def demoInfo : UserInfo :=
  { UID := [1], SessionsCap := 4, UpRate := 1000000, DownRate := 2000000,
    UpCredit := 10000, DownCredit := 20000, ExpiryTime := 4000000000 }

/-- The panel after provisioning `demoInfo`. -/
def demoPanel : Userpanel :=
  (addNewUser basePanel demoInfo).2

/-- A full-width 32-byte UID. -/
def demoUID32 : Bytes :=
  List.replicate 32 7

/-- A user record under the full-width UID. -/
def demoInfo32 : UserInfo :=
  { UID := demoUID32, SessionsCap := 4, UpRate := 1000000, DownRate := 2000000,
    UpCredit := 10000, DownCredit := 20000, ExpiryTime := 4000000000 }

/-- The panel after provisioning `demoInfo32`. -/
def demoPanel32 : Userpanel :=
  (addNewUser basePanel demoInfo32).2

/-- The panel after also activating `demoUID32`. -/
def demoPanelActive32 : Userpanel :=
  (GetAndActivateUser demoPanel32 demoUID32).2

/-- A store whose only bucket (UID `[1]`) has no fields at all. -/
def badDB : DB :=
  [([1], [])]

/-- A panel over `badDB`. -/
def badPanel : Userpanel :=
  { db := badDB, bakRoot := "db-backup", files := [], activeUsers := [] }

/-! ### Association-list laws -/

theorem aGet_aPut_self {κ α : Type} [DecidableEq κ] (l : List (κ × α)) (k : κ) (v : α) :
    aGet (aPut l k v) k = some v := by
  simp [aGet, aPut]

theorem aGet_filter_ne {κ α : Type} [DecidableEq κ] (l : List (κ × α)) (k k' : κ)
    (h : k' ≠ k) : aGet (l.filter (fun p => decide (p.1 ≠ k))) k' = aGet l k' := by
  induction l with
  | nil => rfl
  | cons p rest ih =>
    rw [List.filter_cons]
    by_cases hp : p.1 = k
    · rw [if_neg (by simp [hp]), ih]
      have hne : ¬ (p.1 = k') := fun hh => h (hh.symm.trans hp)
      rw [show aGet (p :: rest) k' = if p.1 = k' then some p.2 else aGet rest k' from rfl,
        if_neg hne]
    · rw [if_pos (by simp [hp])]
      rw [show aGet (p :: rest.filter (fun p => decide (p.1 ≠ k))) k'
            = if p.1 = k' then some p.2
              else aGet (rest.filter (fun p => decide (p.1 ≠ k))) k' from rfl]
      rw [show aGet (p :: rest) k' = if p.1 = k' then some p.2 else aGet rest k' from rfl]
      rw [ih]

theorem aGet_aPut_ne {κ α : Type} [DecidableEq κ] (l : List (κ × α)) (k k' : κ) (v : α)
    (h : k' ≠ k) : aGet (aPut l k v) k' = aGet l k' := by
  have h' : ¬ (k = k') := fun hh => h hh.symm
  rw [show aGet (aPut l k v) k'
        = if k = k' then some v
          else aGet (l.filter (fun p => decide (p.1 ≠ k))) k' from rfl, if_neg h']
  exact aGet_filter_ne l k k' h

theorem aGet_aDel_self {κ α : Type} [DecidableEq κ] (l : List (κ × α)) (k : κ) :
    aGet (aDel l k) k = none := by
  induction l with
  | nil => rfl
  | cons p rest ih =>
    by_cases hp : p.1 = k
    · simpa [aDel, List.filter_cons, hp] using ih
    · simpa [aDel, List.filter_cons, hp, aGet] using ih

theorem aGet_aDel_ne {κ α : Type} [DecidableEq κ] (l : List (κ × α)) (k k' : κ)
    (h : k' ≠ k) : aGet (aDel l k) k' = aGet l k' :=
  aGet_filter_ne l k k' h

/-! ### Encoding laws -/

theorem length_natToBytesBE (w n : Nat) : (natToBytesBE w n).length = w := by
  induction w generalizing n with
  | zero => rfl
  | succ w ih => simp [natToBytesBE, ih]

theorem bytesToNat_append (l : Bytes) (b : Nat) :
    bytesToNat (l ++ [b]) = bytesToNat l * 256 + b := by
  simp [bytesToNat, List.foldl_append]

theorem bytesToNat_natToBytesBE (w n : Nat) :
    bytesToNat (natToBytesBE w n) = n % 256 ^ w := by
  induction w generalizing n with
  | zero => simp [natToBytesBE, bytesToNat, Nat.mod_one]
  | succ w ih =>
    rw [natToBytesBE, bytesToNat_append, ih, pow_succ, Nat.mul_comm (256 ^ w) 256,
      Nat.mod_mul]
    ring

theorem i64ToU64_lt (v : Int) : i64ToU64 v < 2 ^ 64 := by
  have h1 : v % (2 ^ 64 : Int) < 2 ^ 64 := Int.emod_lt_of_pos v (by norm_num)
  have h0 : 0 ≤ v % (2 ^ 64 : Int) := Int.emod_nonneg v (by norm_num)
  have e64 : (2 : Int) ^ 64 = 18446744073709551616 := by norm_num
  have e64n : (2 : Nat) ^ 64 = 18446744073709551616 := by norm_num
  unfold i64ToU64
  rw [e64n]
  rw [e64] at h1 h0
  omega

theorem goUint64_i64ToB (v : Int) : goUint64 (some (i64ToB v)) = some (i64ToU64 v) := by
  have hlen : (i64ToB v).length = 8 := length_natToBytesBE 8 _
  have htake : (i64ToB v).take 8 = i64ToB v := List.take_of_length_le (le_of_eq hlen)
  have hmod : i64ToU64 v % 256 ^ 8 = i64ToU64 v := by
    apply Nat.mod_eq_of_lt
    have := i64ToU64_lt v
    norm_num at this ⊢
    exact this
  simp only [goUint64, hlen, htake]
  rw [if_pos (by norm_num)]
  rw [i64ToB, bytesToNat_natToBytesBE, hmod]

theorem goUint32_u32ToB (n : Nat) (h : isU32 n) : goUint32 (some (u32ToB n)) = some n := by
  have hlen : (u32ToB n).length = 4 := length_natToBytesBE 4 _
  have htake : (u32ToB n).take 4 = u32ToB n := List.take_of_length_le (le_of_eq hlen)
  have hmod : n % 256 ^ 4 = n := by
    apply Nat.mod_eq_of_lt
    unfold isU32 at h
    norm_num at h ⊢
    exact h
  simp only [goUint32, hlen, htake]
  rw [if_pos (by norm_num)]
  rw [u32ToB, bytesToNat_natToBytesBE, hmod]

theorem u64_round (v : Int) (h : isI64 v) : u64ToI64 (i64ToU64 v) = v := by
  obtain ⟨hl, hr⟩ := h
  have h1 : v % (2 ^ 64 : Int) < 2 ^ 64 := Int.emod_lt_of_pos v (by norm_num)
  have h0 : 0 ≤ v % (2 ^ 64 : Int) := Int.emod_nonneg v (by norm_num)
  have hd : (2 ^ 64 : Int) * (v / 2 ^ 64) + v % 2 ^ 64 = v := Int.ediv_add_emod v _
  have e64 : (2 : Int) ^ 64 = 18446744073709551616 := by norm_num
  have e63 : (2 : Int) ^ 63 = 9223372036854775808 := by norm_num
  have e63n : (2 : Nat) ^ 63 = 9223372036854775808 := by norm_num
  rw [e64] at h1 h0 hd
  rw [e63] at hl hr
  unfold u64ToI64 i64ToU64
  rw [e64, e63n]
  split
  · omega
  · omega

theorem i64wrap_isI64 (x : Int) : isI64 (i64wrap x) := by
  have hlt : i64ToU64 x < 2 ^ 64 := i64ToU64_lt x
  have e64n : (2 : Nat) ^ 64 = 18446744073709551616 := by norm_num
  have e63n : (2 : Nat) ^ 63 = 9223372036854775808 := by norm_num
  have e64 : (2 : Int) ^ 64 = 18446744073709551616 := by norm_num
  have e63 : (2 : Int) ^ 63 = 9223372036854775808 := by norm_num
  unfold i64wrap u64ToI64 isI64
  rw [e64n] at hlt
  rw [e63n, e64, e63]
  split
  · constructor <;> omega
  · constructor <;> omega

theorem i64wrap_eq (v : Int) (h : isI64 v) : i64wrap v = v :=
  u64_round v h

theorem decoded_i64ToB (v : Int) :
    (goUint64 (some (i64ToB v))).map u64ToI64 = some (i64wrap v) := by
  rw [goUint64_i64ToB]
  rfl

/-! ### Round-trip of `addNewUser`'s bucket -/

theorem newUserBucket_sessionsCap (u : UserInfo) :
    aGet (newUserBucket u) "SessionsCap" = some (u32ToB u.SessionsCap) := by
  unfold newUserBucket
  rw [aGet_aPut_ne _ _ _ _ (by decide), aGet_aPut_ne _ _ _ _ (by decide),
    aGet_aPut_ne _ _ _ _ (by decide), aGet_aPut_ne _ _ _ _ (by decide),
    aGet_aPut_ne _ _ _ _ (by decide), aGet_aPut_self]

theorem newUserBucket_upRate (u : UserInfo) :
    aGet (newUserBucket u) "UpRate" = some (i64ToB u.UpRate) := by
  unfold newUserBucket
  rw [aGet_aPut_ne _ _ _ _ (by decide), aGet_aPut_ne _ _ _ _ (by decide),
    aGet_aPut_ne _ _ _ _ (by decide), aGet_aPut_ne _ _ _ _ (by decide),
    aGet_aPut_self]

theorem newUserBucket_downRate (u : UserInfo) :
    aGet (newUserBucket u) "DownRate" = some (i64ToB u.DownRate) := by
  unfold newUserBucket
  rw [aGet_aPut_ne _ _ _ _ (by decide), aGet_aPut_ne _ _ _ _ (by decide),
    aGet_aPut_ne _ _ _ _ (by decide), aGet_aPut_self]

theorem newUserBucket_upCredit (u : UserInfo) :
    aGet (newUserBucket u) "UpCredit" = some (i64ToB u.UpCredit) := by
  unfold newUserBucket
  rw [aGet_aPut_ne _ _ _ _ (by decide), aGet_aPut_ne _ _ _ _ (by decide),
    aGet_aPut_self]

theorem newUserBucket_downCredit (u : UserInfo) :
    aGet (newUserBucket u) "DownCredit" = some (i64ToB u.DownCredit) := by
  unfold newUserBucket
  rw [aGet_aPut_ne _ _ _ _ (by decide), aGet_aPut_self]

theorem newUserBucket_expiryTime (u : UserInfo) :
    aGet (newUserBucket u) "ExpiryTime" = some (i64ToB u.ExpiryTime) := by
  unfold newUserBucket
  rw [aGet_aPut_self]

theorem decodeBucket_newUserBucket (u : UserInfo)
    (hsc : isU32 u.SessionsCap) (hur : isI64 u.UpRate) (hdr : isI64 u.DownRate)
    (huc : isI64 u.UpCredit) (hdc : isI64 u.DownCredit) (het : isI64 u.ExpiryTime) :
    decodeBucket u.UID (newUserBucket u) = some u := by
  unfold decodeBucket
  rw [newUserBucket_sessionsCap, newUserBucket_upRate, newUserBucket_downRate,
    newUserBucket_upCredit, newUserBucket_downCredit, newUserBucket_expiryTime,
    goUint32_u32ToB _ hsc, goUint64_i64ToB, goUint64_i64ToB, goUint64_i64ToB,
    goUint64_i64ToB, goUint64_i64ToB]
  simp only [Option.bind, Option.map]
  rw [u64_round _ hur, u64_round _ hdr, u64_round _ huc, u64_round _ hdc,
    u64_round _ het]

/-- Claim C3: for every UserInfo whose SessionsCap fits in a uint32 and whose
five int64 fields fit in int64 (in particular all values in the claim's test
set), creating the user with `addNewUser` on a store without that bucket and
reading it back with `getUserInfo` on the same UID yields a field-equal
`UserInfo`: every integer field is stored as fixed-width big-endian bytes
(uint32 as 4 bytes, int64 as the 8-byte unsigned reinterpretation) and decoded
by the inverse conversion. -/
theorem claim_C3 (up : Userpanel) (u : UserInfo)
    (hne : u.UID ≠ []) (habs : aGet up.db u.UID = none)
    (hsc : isU32 u.SessionsCap) (hur : isI64 u.UpRate) (hdr : isI64 u.DownRate)
    (huc : isI64 u.UpCredit) (hdc : isI64 u.DownCredit) (het : isI64 u.ExpiryTime) :
    (addNewUser up u).1 = Res.ok () ∧
    getUserInfo (addNewUser up u).2.db u.UID = Res.ok u := by
  unfold addNewUser
  rw [if_neg hne, habs]
  refine ⟨rfl, ?_⟩
  unfold getUserInfo
  rw [show ({ up with db := aPut up.db u.UID (newUserBucket u) } : Userpanel).db
        = aPut up.db u.UID (newUserBucket u) from rfl]
  rw [aGet_aPut_self]
  simp only [decodeBucket_newUserBucket u hsc hur hdr huc hdc het]

/-- Witness for C3 at a concrete user record. -/
theorem claim_C3_witness :
    (addNewUser basePanel demoInfo).1 = Res.ok () ∧
    getUserInfo (addNewUser basePanel demoInfo).2.db demoInfo.UID = Res.ok demoInfo :=
  claim_C3 basePanel demoInfo (by decide) (by decide) (by decide) (by decide)
    (by decide) (by decide) (by decide) (by decide)

/-! ### Claim C1: the write-through rule of the admin setters -/

theorem setSessionsCap_spec :
    SetterSpec setSessionsCap "SessionsCap" u32ToB userSetSessionsCap := by
  intro up UID v
  constructor
  · intro h
    unfold setSessionsCap updateDBEntryUint32
    rw [h]
  · intro b hb
    rcases hau : getActiveUser up UID with _ | u
    · have hset : setSessionsCap up UID v
          = (Res.ok (), { up with db := aPut up.db UID (aPut b "SessionsCap" (u32ToB v)) }) := by
        unfold setSessionsCap updateDBEntryUint32
        rw [hb, hau]
      refine ⟨by rw [hset], by rw [hset], aGet_aPut_self _ _ _,
        fun _ => by rw [hset], ?_⟩
      intro u' hu'
      exact Option.noConfusion hu'
    · have hset : setSessionsCap up UID v
          = (Res.ok (), { up with db := aPut up.db UID (aPut b "SessionsCap" (u32ToB v)), activeUsers := aPut up.activeUsers (pad32 UID) (userSetSessionsCap u v) }) := by
        unfold setSessionsCap updateDBEntryUint32
        rw [hb, hau]
      refine ⟨by rw [hset], by rw [hset], aGet_aPut_self _ _ _, ?_, ?_⟩
      · intro h0
        exact Option.noConfusion h0
      · intro u' hu'
        injection hu' with h2
        subst h2
        rw [hset]
        exact aGet_aPut_self _ _ _

theorem setUpRate_spec :
    SetterSpec setUpRate "UpRate" i64ToB userSetUpRate := by
  intro up UID v
  constructor
  · intro h
    unfold setUpRate updateDBEntryInt64
    rw [h]
  · intro b hb
    rcases hau : getActiveUser up UID with _ | u
    · have hset : setUpRate up UID v
          = (Res.ok (), { up with db := aPut up.db UID (aPut b "UpRate" (i64ToB v)) }) := by
        unfold setUpRate updateDBEntryInt64
        rw [hb, hau]
      refine ⟨by rw [hset], by rw [hset], aGet_aPut_self _ _ _,
        fun _ => by rw [hset], ?_⟩
      intro u' hu'
      exact Option.noConfusion hu'
    · have hset : setUpRate up UID v
          = (Res.ok (), { up with db := aPut up.db UID (aPut b "UpRate" (i64ToB v)), activeUsers := aPut up.activeUsers (pad32 UID) (userSetUpRate u v) }) := by
        unfold setUpRate updateDBEntryInt64
        rw [hb, hau]
      refine ⟨by rw [hset], by rw [hset], aGet_aPut_self _ _ _, ?_, ?_⟩
      · intro h0
        exact Option.noConfusion h0
      · intro u' hu'
        injection hu' with h2
        subst h2
        rw [hset]
        exact aGet_aPut_self _ _ _

theorem setDownRate_spec :
    SetterSpec setDownRate "DownRate" i64ToB userSetDownRate := by
  intro up UID v
  constructor
  · intro h
    unfold setDownRate updateDBEntryInt64
    rw [h]
  · intro b hb
    rcases hau : getActiveUser up UID with _ | u
    · have hset : setDownRate up UID v
          = (Res.ok (), { up with db := aPut up.db UID (aPut b "DownRate" (i64ToB v)) }) := by
        unfold setDownRate updateDBEntryInt64
        rw [hb, hau]
      refine ⟨by rw [hset], by rw [hset], aGet_aPut_self _ _ _,
        fun _ => by rw [hset], ?_⟩
      intro u' hu'
      exact Option.noConfusion hu'
    · have hset : setDownRate up UID v
          = (Res.ok (), { up with db := aPut up.db UID (aPut b "DownRate" (i64ToB v)), activeUsers := aPut up.activeUsers (pad32 UID) (userSetDownRate u v) }) := by
        unfold setDownRate updateDBEntryInt64
        rw [hb, hau]
      refine ⟨by rw [hset], by rw [hset], aGet_aPut_self _ _ _, ?_, ?_⟩
      · intro h0
        exact Option.noConfusion h0
      · intro u' hu'
        injection hu' with h2
        subst h2
        rw [hset]
        exact aGet_aPut_self _ _ _

theorem setUpCredit_spec :
    SetterSpec setUpCredit "UpCredit" i64ToB userSetUpCredit := by
  intro up UID v
  constructor
  · intro h
    unfold setUpCredit updateDBEntryInt64
    rw [h]
  · intro b hb
    rcases hau : getActiveUser up UID with _ | u
    · have hset : setUpCredit up UID v
          = (Res.ok (), { up with db := aPut up.db UID (aPut b "UpCredit" (i64ToB v)) }) := by
        unfold setUpCredit updateDBEntryInt64
        rw [hb, hau]
      refine ⟨by rw [hset], by rw [hset], aGet_aPut_self _ _ _,
        fun _ => by rw [hset], ?_⟩
      intro u' hu'
      exact Option.noConfusion hu'
    · have hset : setUpCredit up UID v
          = (Res.ok (), { up with db := aPut up.db UID (aPut b "UpCredit" (i64ToB v)), activeUsers := aPut up.activeUsers (pad32 UID) (userSetUpCredit u v) }) := by
        unfold setUpCredit updateDBEntryInt64
        rw [hb, hau]
      refine ⟨by rw [hset], by rw [hset], aGet_aPut_self _ _ _, ?_, ?_⟩
      · intro h0
        exact Option.noConfusion h0
      · intro u' hu'
        injection hu' with h2
        subst h2
        rw [hset]
        exact aGet_aPut_self _ _ _

theorem setDownCredit_spec :
    SetterSpec setDownCredit "DownCredit" i64ToB userSetDownCredit := by
  intro up UID v
  constructor
  · intro h
    unfold setDownCredit updateDBEntryInt64
    rw [h]
  · intro b hb
    rcases hau : getActiveUser up UID with _ | u
    · have hset : setDownCredit up UID v
          = (Res.ok (), { up with db := aPut up.db UID (aPut b "DownCredit" (i64ToB v)) }) := by
        unfold setDownCredit updateDBEntryInt64
        rw [hb, hau]
      refine ⟨by rw [hset], by rw [hset], aGet_aPut_self _ _ _,
        fun _ => by rw [hset], ?_⟩
      intro u' hu'
      exact Option.noConfusion hu'
    · have hset : setDownCredit up UID v
          = (Res.ok (), { up with db := aPut up.db UID (aPut b "DownCredit" (i64ToB v)), activeUsers := aPut up.activeUsers (pad32 UID) (userSetDownCredit u v) }) := by
        unfold setDownCredit updateDBEntryInt64
        rw [hb, hau]
      refine ⟨by rw [hset], by rw [hset], aGet_aPut_self _ _ _, ?_, ?_⟩
      · intro h0
        exact Option.noConfusion h0
      · intro u' hu'
        injection hu' with h2
        subst h2
        rw [hset]
        exact aGet_aPut_self _ _ _

theorem setExpiryTime_spec :
    SetterSpec setExpiryTime "ExpiryTime" i64ToB userSetExpiryTime := by
  intro up UID v
  constructor
  · intro h
    unfold setExpiryTime updateDBEntryInt64
    rw [h]
  · intro b hb
    rcases hau : getActiveUser up UID with _ | u
    · have hset : setExpiryTime up UID v
          = (Res.ok (), { up with db := aPut up.db UID (aPut b "ExpiryTime" (i64ToB v)) }) := by
        unfold setExpiryTime updateDBEntryInt64
        rw [hb, hau]
      refine ⟨by rw [hset], by rw [hset], aGet_aPut_self _ _ _,
        fun _ => by rw [hset], ?_⟩
      intro u' hu'
      exact Option.noConfusion hu'
    · have hset : setExpiryTime up UID v
          = (Res.ok (), { up with db := aPut up.db UID (aPut b "ExpiryTime" (i64ToB v)), activeUsers := aPut up.activeUsers (pad32 UID) (userSetExpiryTime u v) }) := by
        unfold setExpiryTime updateDBEntryInt64
        rw [hb, hau]
      refine ⟨by rw [hset], by rw [hset], aGet_aPut_self _ _ _, ?_, ?_⟩
      · intro h0
        exact Option.noConfusion h0
      · intro u' hu'
        injection hu' with h2
        subst h2
        rw [hset]
        exact aGet_aPut_self _ _ _

/-- Claim C1: every admin setter (setSessionsCap, setUpRate, setDownRate,
setUpCredit, setDownCredit, setExpiryTime) first writes the new value to the
ledger store; if that write fails the error is returned and the panel state
(in particular the active-user cache) is untouched; if it succeeds and the
UID has an active cache entry the same value is applied to the live User,
and if the UID is not active the call returns success with the cache
unchanged. -/
theorem claim_C1 :
    SetterSpec setSessionsCap "SessionsCap" u32ToB userSetSessionsCap ∧
    SetterSpec setUpRate "UpRate" i64ToB userSetUpRate ∧
    SetterSpec setDownRate "DownRate" i64ToB userSetDownRate ∧
    SetterSpec setUpCredit "UpCredit" i64ToB userSetUpCredit ∧
    SetterSpec setDownCredit "DownCredit" i64ToB userSetDownCredit ∧
    SetterSpec setExpiryTime "ExpiryTime" i64ToB userSetExpiryTime :=
  ⟨setSessionsCap_spec, setUpRate_spec, setDownRate_spec, setUpCredit_spec,
    setDownCredit_spec, setExpiryTime_spec⟩

/-- Witness for C1: a failing write on an empty store leaves the panel
untouched, and a successful write on a provisioned store returns success. -/
theorem claim_C1_witness :
    setUpRate basePanel [1] 5 = (Res.err GoErr.userNotFound, basePanel) ∧
    (setSessionsCap demoPanel [1] 7).1 = Res.ok () ∧
    (setExpiryTime demoPanel [1] 123).1 = Res.ok () :=
  ⟨(claim_C1.2.1 basePanel [1] 5).1 (by decide),
    ((claim_C1.1 demoPanel [1] 7).2 (newUserBucket demoInfo) (by decide)).1,
    ((claim_C1.2.2.2.2.2 demoPanel [1] 123).2 (newUserBucket demoInfo) (by decide)).1⟩

/-! ### Claim C2: activation and cache consistency -/

/-- Claim C2: if the UID is already in the active-user cache,
GetAndActivateUser returns the very cached User and changes nothing (so
repeated activations return the same User until delActiveUser removes the
entry); if it is not cached and the store has no bucket it returns
ErrUserNotFound installing nothing; if it is not cached and the bucket loads,
it constructs the User from the stored fields (valve initialised from the
credits, via MakeUser), installs it and returns it. -/
theorem claim_C2 (up : Userpanel) (UID : Bytes) :
    (∀ u, getActiveUser up UID = some u →
      GetAndActivateUser up UID = (Res.ok u, up)) ∧
    (getActiveUser up UID = none → aGet up.db UID = none →
      GetAndActivateUser up UID = (Res.err GoErr.userNotFound, up)) ∧
    (∀ uinfo, getActiveUser up UID = none → getUserInfo up.db UID = Res.ok uinfo →
      GetAndActivateUser up UID
        = (Res.ok (MakeUser uinfo),
            { up with activeUsers := aPut up.activeUsers (pad32 UID) (MakeUser uinfo) }) ∧
      getActiveUser (GetAndActivateUser up UID).2 UID = some (MakeUser uinfo)) ∧
    getActiveUser (delActiveUser up UID) UID = none := by
  refine ⟨?_, ?_, ?_, aGet_aDel_self _ _⟩
  · intro u hu
    unfold GetAndActivateUser
    rw [show aGet up.activeUsers (pad32 UID) = some u from hu]
  · intro hau hdb
    unfold GetAndActivateUser
    rw [show aGet up.activeUsers (pad32 UID) = none from hau, hdb]
  · intro uinfo hau hload
    unfold getUserInfo at hload
    rcases hdb : aGet up.db UID with _ | b
    · rw [hdb] at hload
      simp at hload
    · rw [hdb] at hload
      have hload2 : (match decodeBucket UID b with
          | none => Res.crash
          | some uinfo => Res.ok uinfo) = Res.ok uinfo := hload
      rcases hdec : decodeBucket UID b with _ | u'
      · rw [hdec] at hload2
        simp at hload2
      · rw [hdec] at hload2
        simp at hload2
        subst hload2
        have hrun : GetAndActivateUser up UID
            = (Res.ok (MakeUser u'),
                { up with activeUsers := aPut up.activeUsers (pad32 UID) (MakeUser u') }) := by
          unfold GetAndActivateUser
          rw [show aGet up.activeUsers (pad32 UID) = none from hau, hdb]
          simp only [hdec]
        refine ⟨hrun, ?_⟩
        rw [hrun]
        exact aGet_aPut_self _ _ _

/-- Witness for C2: a miss on an empty store, a fresh activation on a
provisioned store, and a repeated activation returning the cached User. -/
theorem claim_C2_witness :
    GetAndActivateUser basePanel [2] = (Res.err GoErr.userNotFound, basePanel) ∧
    (GetAndActivateUser demoPanel [1]).1 = Res.ok (MakeUser demoInfo) ∧
    getActiveUser (GetAndActivateUser demoPanel [1]).2 [1] = some (MakeUser demoInfo) ∧
    GetAndActivateUser (GetAndActivateUser demoPanel [1]).2 [1]
      = (Res.ok (MakeUser demoInfo), (GetAndActivateUser demoPanel [1]).2) :=
  ⟨(claim_C2 basePanel [2]).2.1 (by decide) (by decide),
    by rw [((claim_C2 demoPanel [1]).2.2.1 demoInfo (by decide) (by decide)).1],
    ((claim_C2 demoPanel [1]).2.2.1 demoInfo (by decide) (by decide)).2,
    (claim_C2 (GetAndActivateUser demoPanel [1]).2 [1]).1 (MakeUser demoInfo) (by decide)⟩

/-! ### Claim C10: delUser does not touch the active-user cache -/

/-- Claim C10: for every UID, delUser changes only the persisted store and
the backup directory: the active-user cache and the backup root are
untouched, getActiveUser still returns the same live User afterwards, and
the buckets of every other key are unchanged. -/
theorem claim_C10 (up : Userpanel) (now : Int) (UID : Bytes) :
    (delUser up now UID).2.activeUsers = up.activeUsers ∧
    (delUser up now UID).2.bakRoot = up.bakRoot ∧
    getActiveUser (delUser up now UID).2 UID = getActiveUser up UID ∧
    (∀ u, getActiveUser up UID = some u →
      getActiveUser (delUser up now UID).2 UID = some u) ∧
    (∀ k, k ≠ UID → aGet (delUser up now UID).2.db k = aGet up.db k) := by
  rcases hf : aGet up.files (up.bakRoot ++ "/" ++ delUserName now UID) with _ | d
  · rcases hb : aGet up.db UID with _ | b
    · have hrun : delUser up now UID
          = (Res.err GoErr.bucketNotFound,
              { up with files := aPut up.files (up.bakRoot ++ "/" ++ delUserName now UID) up.db }) := by
        simp only [delUser, backupDB, hf, hb]
      rw [hrun]
      exact ⟨rfl, rfl, rfl, fun u hu => hu, fun k hk => rfl⟩
    · have hrun : delUser up now UID
          = (Res.ok (),
              { up with files := aPut up.files (up.bakRoot ++ "/" ++ delUserName now UID) up.db,
                        db := aDel up.db UID }) := by
        simp only [delUser, backupDB, hf, hb]
      rw [hrun]
      exact ⟨rfl, rfl, rfl, fun u hu => hu, fun k hk => aGet_aDel_ne _ _ _ hk⟩
  · have hrun : delUser up now UID = (Res.err GoErr.backupOverwrite, up) := by
      unfold delUser backupDB
      rw [hf]
    rw [hrun]
    exact ⟨rfl, rfl, rfl, fun u hu => hu, fun k hk => rfl⟩

/-- Witness for C10: deleting the provisioned user keeps the activated cache
entry intact. -/
theorem claim_C10_witness :
    (delUser (GetAndActivateUser demoPanel32 demoUID32).2 100 demoUID32).2.activeUsers
      = (GetAndActivateUser demoPanel32 demoUID32).2.activeUsers ∧
    getActiveUser (delUser (GetAndActivateUser demoPanel32 demoUID32).2 100 demoUID32).2 demoUID32
      = some (MakeUser demoInfo32) ∧
    aGet (delUser (GetAndActivateUser demoPanel32 demoUID32).2 100 demoUID32).2.db [9]
      = aGet (GetAndActivateUser demoPanel32 demoUID32).2.db [9] :=
  ⟨(claim_C10 (GetAndActivateUser demoPanel32 demoUID32).2 100 demoUID32).1,
    (claim_C10 (GetAndActivateUser demoPanel32 demoUID32).2 100 demoUID32).2.2.2.1
      (MakeUser demoInfo32) (by decide),
    (claim_C10 (GetAndActivateUser demoPanel32 demoUID32).2 100 demoUID32).2.2.2.2
      [9] (by decide)⟩

/-! ### Claim C4: signed add-credit against the store -/

theorem i64wrap_idem (y : Int) : i64wrap (i64wrap y) = i64wrap y :=
  i64wrap_eq _ (i64wrap_isI64 y)

theorem persistedUp_put (db : DB) (UID : Bytes) (b : Bucket) (x : Int) :
    persistedUpCredit (aPut db UID (aPut b "UpCredit" (i64ToB x))) UID
      = some (i64wrap x) := by
  unfold persistedUpCredit
  simp only [aGet_aPut_self]
  rw [goUint64_i64ToB]
  rfl

theorem persistedDown_put (db : DB) (UID : Bytes) (b : Bucket) (x : Int) :
    persistedDownCredit (aPut db UID (aPut b "DownCredit" (i64ToB x))) UID
      = some (i64wrap x) := by
  unfold persistedDownCredit
  simp only [aGet_aPut_self]
  rw [goUint64_i64ToB]
  rfl

theorem addUpCredit_notFound (up : Userpanel) (UID : Bytes) (delta : Int)
    (h : aGet up.db UID = none) :
    addUpCredit up UID delta = (Res.err GoErr.userNotFound, up) := by
  unfold addUpCredit
  rw [h]

theorem addDownCredit_notFound (up : Userpanel) (UID : Bytes) (delta : Int)
    (h : aGet up.db UID = none) :
    addDownCredit up UID delta = (Res.err GoErr.userNotFound, up) := by
  unfold addDownCredit
  rw [h]

theorem addUpCredit_ok (up : Userpanel) (UID : Bytes) (delta old : Int)
    (h : persistedUpCredit up.db UID = some old) :
    (addUpCredit up UID delta).1 = Res.ok () ∧
    persistedUpCredit (addUpCredit up UID delta).2.db UID
      = some (i64wrap (old + delta)) := by
  unfold persistedUpCredit at h
  rcases hdb : aGet up.db UID with _ | b
  · rw [hdb] at h
    exact Option.noConfusion h
  · rw [hdb] at h
    have h2 : (goUint64 (aGet b "UpCredit")).map u64ToI64 = some old := h
    rcases hgu : goUint64 (aGet b "UpCredit") with _ | n
    · rw [hgu] at h2
      exact Option.noConfusion h2
    · rw [hgu] at h2
      simp at h2
      have hstep : (addUpCredit up UID delta).1 = Res.ok () ∧
          (addUpCredit up UID delta).2.db
            = aPut up.db UID (aPut b "UpCredit" (i64ToB (i64wrap (u64ToI64 n + delta)))) := by
        rcases hau : getActiveUser up UID with _ | u
        · constructor
          · simp only [addUpCredit, hdb, hgu, hau]
          · simp only [addUpCredit, hdb, hgu, hau]
        · constructor
          · simp only [addUpCredit, hdb, hgu, hau]
          · simp only [addUpCredit, hdb, hgu, hau]
      refine ⟨hstep.1, ?_⟩
      rw [hstep.2, persistedUp_put, i64wrap_idem, h2]

theorem addDownCredit_ok (up : Userpanel) (UID : Bytes) (delta old : Int)
    (h : persistedDownCredit up.db UID = some old) :
    (addDownCredit up UID delta).1 = Res.ok () ∧
    persistedDownCredit (addDownCredit up UID delta).2.db UID
      = some (i64wrap (old + delta)) := by
  unfold persistedDownCredit at h
  rcases hdb : aGet up.db UID with _ | b
  · rw [hdb] at h
    exact Option.noConfusion h
  · rw [hdb] at h
    have h2 : (goUint64 (aGet b "DownCredit")).map u64ToI64 = some old := h
    rcases hgu : goUint64 (aGet b "DownCredit") with _ | n
    · rw [hgu] at h2
      exact Option.noConfusion h2
    · rw [hgu] at h2
      simp at h2
      have hstep : (addDownCredit up UID delta).1 = Res.ok () ∧
          (addDownCredit up UID delta).2.db
            = aPut up.db UID (aPut b "DownCredit" (i64ToB (i64wrap (u64ToI64 n + delta)))) := by
        rcases hau : getActiveUser up UID with _ | u
        · constructor
          · simp only [addDownCredit, hdb, hgu, hau]
          · simp only [addDownCredit, hdb, hgu, hau]
        · constructor
          · simp only [addDownCredit, hdb, hgu, hau]
          · simp only [addDownCredit, hdb, hgu, hau]
      refine ⟨hstep.1, ?_⟩
      rw [hstep.2, persistedDown_put, i64wrap_idem, h2]

/-- Claim C4: for every UID with a persisted bucket whose credit field
decodes, addUpCredit (and symmetrically addDownCredit) is a read-modify-write
inside one store transaction: the persisted credit afterwards is the prior
persisted credit plus the delta in exact int64 (wrap-around) arithmetic, so
it equals the mathematical sum whenever that sum fits in int64, and
sequential (hence, since bolt serialises Update transactions, any serialised
concurrent) add-credit calls against the same UID accumulate without losing
updates; with no bucket the call returns ErrUserNotFound. -/
theorem claim_C4 (up : Userpanel) (UID : Bytes) (delta : Int) :
    (aGet up.db UID = none →
      addUpCredit up UID delta = (Res.err GoErr.userNotFound, up) ∧
      addDownCredit up UID delta = (Res.err GoErr.userNotFound, up)) ∧
    (∀ old, persistedUpCredit up.db UID = some old →
      (addUpCredit up UID delta).1 = Res.ok () ∧
      persistedUpCredit (addUpCredit up UID delta).2.db UID
        = some (i64wrap (old + delta)) ∧
      (isI64 (old + delta) →
        persistedUpCredit (addUpCredit up UID delta).2.db UID = some (old + delta))) ∧
    (∀ old, persistedDownCredit up.db UID = some old →
      (addDownCredit up UID delta).1 = Res.ok () ∧
      persistedDownCredit (addDownCredit up UID delta).2.db UID
        = some (i64wrap (old + delta)) ∧
      (isI64 (old + delta) →
        persistedDownCredit (addDownCredit up UID delta).2.db UID = some (old + delta))) ∧
    (∀ d2 old, persistedUpCredit up.db UID = some old →
      persistedUpCredit (addUpCredit (addUpCredit up UID delta).2 UID d2).2.db UID
        = some (i64wrap (i64wrap (old + delta) + d2))) ∧
    (∀ d2 old, persistedUpCredit up.db UID = some old →
      isI64 (old + delta) → isI64 (old + delta + d2) →
      persistedUpCredit (addUpCredit (addUpCredit up UID delta).2 UID d2).2.db UID
        = some (old + delta + d2)) := by
  refine ⟨?_, ?_, ?_, ?_, ?_⟩
  · intro h
    exact ⟨addUpCredit_notFound up UID delta h, addDownCredit_notFound up UID delta h⟩
  · intro old h
    obtain ⟨h1, h2⟩ := addUpCredit_ok up UID delta old h
    refine ⟨h1, h2, ?_⟩
    intro hr
    rw [h2, i64wrap_eq _ hr]
  · intro old h
    obtain ⟨h1, h2⟩ := addDownCredit_ok up UID delta old h
    refine ⟨h1, h2, ?_⟩
    intro hr
    rw [h2, i64wrap_eq _ hr]
  · intro d2 old h
    obtain ⟨h1, h2⟩ := addUpCredit_ok up UID delta old h
    exact (addUpCredit_ok (addUpCredit up UID delta).2 UID d2 (i64wrap (old + delta)) h2).2
  · intro d2 old h hr1 hr2
    obtain ⟨h1, h2⟩ := addUpCredit_ok up UID delta old h
    have h4 := (addUpCredit_ok (addUpCredit up UID delta).2 UID d2 (i64wrap (old + delta)) h2).2
    rw [i64wrap_eq _ hr1] at h4
    rw [i64wrap_eq _ hr2] at h4
    exact h4

/-- Witness for C4: a missing bucket errors; concrete adds accumulate
exactly. -/
theorem claim_C4_witness :
    addUpCredit basePanel [1] 5 = (Res.err GoErr.userNotFound, basePanel) ∧
    (addUpCredit demoPanel [1] 5).1 = Res.ok () ∧
    persistedUpCredit (addUpCredit demoPanel [1] 5).2.db [1] = some (10000 + 5) ∧
    persistedDownCredit (addDownCredit demoPanel [1] (-6)).2.db [1]
      = some (20000 + (-6)) ∧
    persistedUpCredit (addUpCredit (addUpCredit demoPanel [1] 5).2 [1] 7).2.db [1]
      = some (10000 + 5 + 7) :=
  ⟨((claim_C4 basePanel [1] 5).1 (by decide)).1,
    ((claim_C4 demoPanel [1] 5).2.1 10000 (by decide)).1,
    ((claim_C4 demoPanel [1] 5).2.1 10000 (by decide)).2.2 (by decide),
    ((claim_C4 demoPanel [1] (-6)).2.2.1 20000 (by decide)).2.2 (by decide),
    (claim_C4 demoPanel [1] 5).2.2.2.2 7 10000 (by decide) (by decide) (by decide)⟩

/-! ### Claim C5: delUser backs up before deleting -/

/-- Claim C5: delUser first writes a full-store backup to the file
`bakRoot/{unix_seconds}_pre_del_{base64Std(UID)}.bak` (the snapshot is the
whole pre-delete store) and only then deletes the UID's bucket; if a file
with that generated name already exists the whole operation fails with an
error and nothing changes, so the bucket is not deleted. -/
theorem claim_C5 (up : Userpanel) (now : Int) (UID : Bytes) :
    (∀ d, aGet up.files (delBakPath up now UID) = some d →
      delUser up now UID = (Res.err GoErr.backupOverwrite, up)) ∧
    (aGet up.files (delBakPath up now UID) = none →
      aGet (delUser up now UID).2.files (delBakPath up now UID) = some up.db ∧
      (∀ b, aGet up.db UID = some b →
        (delUser up now UID).1 = Res.ok () ∧
        aGet (delUser up now UID).2.db UID = none ∧
        (∀ k, k ≠ UID → aGet (delUser up now UID).2.db k = aGet up.db k)) ∧
      (aGet up.db UID = none →
        (delUser up now UID).1 = Res.err GoErr.bucketNotFound ∧
        (delUser up now UID).2.db = up.db)) := by
  constructor
  · intro d hf
    unfold delBakPath at hf
    simp only [delUser, backupDB, hf]
  · intro hf
    unfold delBakPath at hf
    rcases hb : aGet up.db UID with _ | b
    · have hrun : delUser up now UID
          = (Res.err GoErr.bucketNotFound,
              { up with files := aPut up.files (up.bakRoot ++ "/" ++ delUserName now UID) up.db }) := by
        simp only [delUser, backupDB, hf, hb]
      refine ⟨?_, ?_, ?_⟩
      · rw [hrun]
        exact aGet_aPut_self _ _ _
      · intro b2 hbb
        exact Option.noConfusion hbb
      · intro h0
        rw [hrun]
        exact ⟨rfl, rfl⟩
    · have hrun : delUser up now UID
          = (Res.ok (),
              { up with files := aPut up.files (up.bakRoot ++ "/" ++ delUserName now UID) up.db,
                        db := aDel up.db UID }) := by
        simp only [delUser, backupDB, hf, hb]
      refine ⟨?_, ?_, ?_⟩
      · rw [hrun]
        exact aGet_aPut_self _ _ _
      · intro b2 hbb
        rw [hrun]
        exact ⟨rfl, aGet_aDel_self _ _, fun k hk => aGet_aDel_ne _ _ _ hk⟩
      · intro h0
        exact Option.noConfusion h0

/-- Witness for C5: a concrete delete writes the snapshot of the pre-delete
store under the generated name and removes the bucket, and a second delete
at the same second is refused as a backup collision, changing nothing. -/
theorem claim_C5_witness :
    aGet (delUser demoPanel 100 [1]).2.files (delBakPath demoPanel 100 [1])
      = some demoPanel.db ∧
    (delUser demoPanel 100 [1]).1 = Res.ok () ∧
    aGet (delUser demoPanel 100 [1]).2.db [1] = none ∧
    delUser (delUser demoPanel 100 [1]).2 100 [1]
      = (Res.err GoErr.backupOverwrite, (delUser demoPanel 100 [1]).2) :=
  ⟨((claim_C5 demoPanel 100 [1]).2 (by decide)).1,
    (((claim_C5 demoPanel 100 [1]).2 (by decide)).2.1 (newUserBucket demoInfo) (by decide)).1,
    (((claim_C5 demoPanel 100 [1]).2 (by decide)).2.1 (newUserBucket demoInfo) (by decide)).2.1,
    (claim_C5 (delUser demoPanel 100 [1]).2 100 [1]).1 demoPanel.db (by decide)⟩

/-! ### Claim C6: one Credit Reconciler tick -/

theorem flushUser_frame (db : DB) (u : User) (k : Bytes) (h : k ≠ u.arrUID) :
    aGet (flushUser db u) k = aGet db k := by
  unfold flushUser
  rcases hb : aGet db u.arrUID with _ | b
  · rfl
  · exact aGet_aPut_ne _ _ _ _ h

theorem flushUser_none (db : DB) (u : User) (k : Bytes) (h : aGet db k = none) :
    aGet (flushUser db u) k = none := by
  by_cases hk : k = u.arrUID
  · subst hk
    unfold flushUser
    rw [h]
    exact h
  · rw [flushUser_frame db u k hk]
    exact h

theorem flushUser_congr (db1 db2 : DB) (u : User)
    (h : aGet db1 u.arrUID = aGet db2 u.arrUID) :
    aGet (flushUser db1 u) u.arrUID = aGet (flushUser db2 u) u.arrUID := by
  unfold flushUser
  rw [h]
  rcases aGet db2 u.arrUID with _ | b
  · exact h
  · show aGet (aPut db1 u.arrUID
        (aPut (aPut b "UpCredit" (i64ToB u.rxCredit)) "DownCredit" (i64ToB u.txCredit))) u.arrUID
      = aGet (aPut db2 u.arrUID
        (aPut (aPut b "UpCredit" (i64ToB u.rxCredit)) "DownCredit" (i64ToB u.txCredit))) u.arrUID
    rw [aGet_aPut_self, aGet_aPut_self]

theorem flushAll_frame (db : DB) (users : List User) (k : Bytes)
    (h : ∀ u ∈ users, k ≠ u.arrUID) :
    aGet (flushAll db users) k = aGet db k := by
  induction users generalizing db with
  | nil => rfl
  | cons u rest ih =>
    rw [show flushAll db (u :: rest) = flushAll (flushUser db u) rest from rfl]
    rw [ih (flushUser db u) (fun v hv => h v (List.mem_cons_of_mem _ hv))]
    exact flushUser_frame db u k (h u (List.mem_cons_self _ _))

theorem flushAll_none (db : DB) (users : List User) (k : Bytes)
    (h : aGet db k = none) : aGet (flushAll db users) k = none := by
  induction users generalizing db with
  | nil => exact h
  | cons u rest ih => exact ih (flushUser db u) (flushUser_none db u k h)

theorem flushAll_mem (db : DB) (users : List User) (u : User)
    (hdist : (users.map (fun v => v.arrUID)).Pairwise (fun a b => a ≠ b))
    (hmem : u ∈ users) :
    aGet (flushAll db users) u.arrUID = aGet (flushUser db u) u.arrUID := by
  induction users generalizing db with
  | nil => cases hmem
  | cons v rest ih =>
    rw [List.map_cons, List.pairwise_cons] at hdist
    obtain ⟨hhead, htail⟩ := hdist
    rcases List.mem_cons.mp hmem with rfl | hmem2
    · rw [show flushAll db (u :: rest) = flushAll (flushUser db u) rest from rfl]
      exact flushAll_frame (flushUser db u) rest u.arrUID
        (fun w hw => hhead w.arrUID (List.mem_map_of_mem _ hw))
    · rw [show flushAll db (v :: rest) = flushAll (flushUser db v) rest from rfl]
      rw [ih (flushUser db v) htail hmem2]
      apply flushUser_congr
      exact flushUser_frame db v u.arrUID
        ((hhead u.arrUID (List.mem_map_of_mem _ hmem2)).symm)

/-- Claim C6: on a Credit Reconciler tick, for each active user both credit
fields are written back into that user's bucket in one common per-UID
transaction (`flushUser` is one `db.Update` body; distinct UIDs are distinct
transactions of the fold); an active user whose bucket is missing is
silently skipped (the store stays without that bucket, no error escapes the
tick, which returns normally); and no other user's flush is prevented: the
per-user conclusion holds for every active user regardless of the others,
and keys owned by no active user are untouched. -/
theorem claim_C6 (up : Userpanel) (u : User)
    (hdist : ((up.activeUsers.map (fun p => p.2)).map (fun v => v.arrUID)).Pairwise
      (fun a b => a ≠ b))
    (hmem : u ∈ up.activeUsers.map (fun p => p.2)) :
    (∀ b, aGet up.db u.arrUID = some b →
      aGet (updateCredits up).db u.arrUID
        = some (aPut (aPut b "UpCredit" (i64ToB u.rxCredit)) "DownCredit"
            (i64ToB u.txCredit))) ∧
    (aGet up.db u.arrUID = none → aGet (updateCredits up).db u.arrUID = none) ∧
    (∀ k, (∀ v ∈ up.activeUsers.map (fun p => p.2), k ≠ v.arrUID) →
      aGet (updateCredits up).db k = aGet up.db k) ∧
    (updateCredits up).activeUsers = up.activeUsers := by
  refine ⟨?_, ?_, ?_, rfl⟩
  · intro b hb
    have h1 : aGet (updateCredits up).db u.arrUID = aGet (flushUser up.db u) u.arrUID :=
      flushAll_mem up.db _ u hdist hmem
    rw [h1]
    unfold flushUser
    rw [hb]
    exact aGet_aPut_self _ _ _
  · intro hb
    exact flushAll_none up.db _ u.arrUID hb
  · intro k hk
    exact flushAll_frame up.db _ k hk

/-- Witness for C6: one tick over the activated panel flushes the valve
credits of the active user into its bucket and leaves foreign keys alone. -/
theorem claim_C6_witness :
    aGet (updateCredits demoPanelActive32).db (MakeUser demoInfo32).arrUID
      = some (aPut (aPut (newUserBucket demoInfo32) "UpCredit"
          (i64ToB (MakeUser demoInfo32).rxCredit)) "DownCredit"
          (i64ToB (MakeUser demoInfo32).txCredit)) ∧
    aGet (updateCredits demoPanelActive32).db [3] = aGet demoPanelActive32.db [3] :=
  ⟨(claim_C6 demoPanelActive32 (MakeUser demoInfo32) (by decide) (by decide)).1
      (newUserBucket demoInfo32) (by decide),
    (claim_C6 demoPanelActive32 (MakeUser demoInfo32) (by decide) (by decide)).2.2.1
      [3] (by decide)⟩

/-! ### Claim C7: the admin user never touches the ledger -/

theorem updateCredits_none (up : Userpanel) (k : Bytes) (h : aGet up.db k = none) :
    aGet (updateCredits up).db k = none :=
  flushAll_none up.db _ k h

theorem iterate_updateCredits_none (n : Nat) (up : Userpanel) (k : Bytes)
    (h : aGet up.db k = none) : aGet ((updateCredits^[n] up).db) k = none := by
  induction n generalizing up with
  | zero => exact h
  | succ n ih =>
    rw [Function.iterate_succ_apply]
    exact ih (updateCredits up) (updateCredits_none up k h)

/-- Claim C7: GetAndActivateAdminUser synthesises the admin User entirely in
memory: the store (and the backup directory) is unchanged, repeated calls
for the same AdminUID return the same User, and since a Credit Reconciler
flush never creates a bucket, after any number of ticks the ledger still has
no record for the admin UID and a ledger load still returns ErrUserNotFound. -/
theorem claim_C7 (up : Userpanel) (A : Bytes) :
    ((GetAndActivateAdminUser up A).2.db = up.db ∧
      (GetAndActivateAdminUser up A).2.files = up.files) ∧
    (∀ u0, getActiveUser up A = some u0 → GetAndActivateAdminUser up A = (u0, up)) ∧
    (getActiveUser up A = none →
      GetAndActivateAdminUser up A
        = (MakeUser (adminUserInfo A),
            { up with activeUsers := aPut up.activeUsers (pad32 A) (MakeUser (adminUserInfo A)) })) ∧
    GetAndActivateAdminUser (GetAndActivateAdminUser up A).2 A
      = ((GetAndActivateAdminUser up A).1, (GetAndActivateAdminUser up A).2) ∧
    (∀ n, aGet up.db A = none →
      aGet ((updateCredits^[n] (GetAndActivateAdminUser up A).2).db) A = none ∧
      getUserInfo ((updateCredits^[n] (GetAndActivateAdminUser up A).2).db) A
        = Res.err GoErr.userNotFound) := by
  have hdb : (GetAndActivateAdminUser up A).2.db = up.db := by
    rcases hau : aGet up.activeUsers (pad32 A) with _ | u0
    · simp only [GetAndActivateAdminUser, hau]
    · simp only [GetAndActivateAdminUser, hau]
  refine ⟨⟨hdb, ?_⟩, ?_, ?_, ?_, ?_⟩
  · rcases hau : aGet up.activeUsers (pad32 A) with _ | u0
    · simp only [GetAndActivateAdminUser, hau]
    · simp only [GetAndActivateAdminUser, hau]
  · intro u0 hu0
    unfold GetAndActivateAdminUser
    rw [show aGet up.activeUsers (pad32 A) = some u0 from hu0]
  · intro hau
    unfold GetAndActivateAdminUser
    rw [show aGet up.activeUsers (pad32 A) = none from hau]
  · rcases hau : aGet up.activeUsers (pad32 A) with _ | u0
    · have hrun : GetAndActivateAdminUser up A
          = (MakeUser (adminUserInfo A),
              { up with activeUsers := aPut up.activeUsers (pad32 A) (MakeUser (adminUserInfo A)) }) := by
        unfold GetAndActivateAdminUser
        rw [hau]
      rw [hrun]
      simp only [GetAndActivateAdminUser, aGet_aPut_self]
    · have hrun : GetAndActivateAdminUser up A = (u0, up) := by
        unfold GetAndActivateAdminUser
        rw [hau]
      rw [hrun]
      exact hrun
  · intro n h
    have h2 : aGet (GetAndActivateAdminUser up A).2.db A = none := by
      rw [hdb]
      exact h
    have ha := iterate_updateCredits_none n _ A h2
    refine ⟨ha, ?_⟩
    unfold getUserInfo
    rw [ha]

/-- Witness for C7: activating the admin UID on an empty panel persists
nothing, twice over two reconciler ticks. -/
theorem claim_C7_witness :
    (GetAndActivateAdminUser basePanel [9]).2.db = basePanel.db ∧
    GetAndActivateAdminUser (GetAndActivateAdminUser basePanel [9]).2 [9]
      = ((GetAndActivateAdminUser basePanel [9]).1,
          (GetAndActivateAdminUser basePanel [9]).2) ∧
    aGet ((updateCredits^[2] (GetAndActivateAdminUser basePanel [9]).2).db) [9] = none ∧
    getUserInfo ((updateCredits^[2] (GetAndActivateAdminUser basePanel [9]).2).db) [9]
      = Res.err GoErr.userNotFound :=
  ⟨(claim_C7 basePanel [9]).1.1,
    (claim_C7 basePanel [9]).2.2.2.1,
    ((claim_C7 basePanel [9]).2.2.2.2 2 (by decide)).1,
    ((claim_C7 basePanel [9]).2.2.2.2 2 (by decide)).2⟩

/-! ### Claim C8: malformed stored fields crash instead of erroring -/

/-- Counterexample to claim C8 as stated: on a store whose bucket for UID
`[1]` has no fields, every read path ends in a Go runtime panic
(`Res.crash`), not in a returned error, because `binary.BigEndian.Uint32/64`
indexes a nil slice; there is no DecodeError in the code. -/
theorem claim_C8_cex :
    getUserInfo badDB [1] = Res.crash ∧
    (GetAndActivateUser badPanel [1]).1 = Res.crash ∧
    (syncMemFromDB badPanel [1]).1 = Res.crash :=
  ⟨by decide, by decide, by decide⟩

/-- Claim C8 (amended): for every UID whose bucket exists but in which some
stored field is absent or too short to decode, every read path
(GetAndActivateUser on a non-cached UID, getUserInfo, syncMemFromDB) ends in
a Go runtime panic — the process crashes — rather than returning an error to
the caller. -/
theorem claim_C8 (db : DB) (UID : Bytes) (b : Bucket)
    (hb : aGet db UID = some b) (hdec : decodeBucket UID b = none) :
    getUserInfo db UID = Res.crash ∧
    (∀ up : Userpanel, up.db = db → getActiveUser up UID = none →
      GetAndActivateUser up UID = (Res.crash, up)) ∧
    (∀ up : Userpanel, up.db = db → syncMemFromDB up UID = (Res.crash, up)) := by
  refine ⟨?_, ?_, ?_⟩
  · unfold getUserInfo
    rw [hb]
    simp only [hdec]
  · intro up hup hau
    unfold GetAndActivateUser
    rw [show aGet up.activeUsers (pad32 UID) = none from hau, hup, hb]
    simp only [hdec]
  · intro up hup
    unfold syncMemFromDB
    rw [hup, hb]
    simp only [hdec]

/-- Witness for the amended C8 at the concrete fieldless bucket. -/
theorem claim_C8_witness :
    getUserInfo badDB [1] = Res.crash ∧
    GetAndActivateUser badPanel [1] = (Res.crash, badPanel) ∧
    syncMemFromDB badPanel [1] = (Res.crash, badPanel) :=
  ⟨(claim_C8 badDB [1] [] (by decide) (by decide)).1,
    (claim_C8 badDB [1] [] (by decide) (by decide)).2.1 badPanel rfl (by decide),
    (claim_C8 badDB [1] [] (by decide) (by decide)).2.2 badPanel rfl⟩

/-! ### Claim C9: zero-padding applies to the cache key only -/

theorem length_pad32 (uid : Bytes) : (pad32 uid).length = 32 := by
  unfold pad32
  simp [List.length_take]
  omega

theorem pad32_of_length (l : Bytes) (h : l.length = 32) : pad32 l = l := by
  unfold pad32
  rw [List.take_of_length_le (le_of_eq h), h]
  simp

theorem pad32_pad32 (uid : Bytes) : pad32 (pad32 uid) = pad32 uid :=
  pad32_of_length _ (length_pad32 uid)

/-- Counterexample to claim C9 as stated: the user provisioned under the
short UID `[1]` is readable from the ledger under `[1]` but not under its
32-byte zero-padded form, so the two forms do not address the same user in
the ledger store. -/
theorem claim_C9_cex :
    getUserInfo demoPanel.db [1] = Res.ok demoInfo ∧
    getUserInfo demoPanel.db (pad32 [1]) = Res.err GoErr.userNotFound ∧
    pad32 [1] ≠ [1] :=
  ⟨by decide, by decide, by decide⟩

/-- Claim C9 (amended): the zero-padding of a short UID to 32 bytes is
applied only when keying the active-user cache (getActiveUser,
delActiveUser and the activation paths use `pad32`), so a short UID and its
padded form address the same cache entry; the ledger store's buckets are
keyed by the raw UID bytes, so for a short UID the two forms address
different buckets: after addNewUser the bucket is found under the raw bytes
while a ledger read of the padded form fails with ErrUserNotFound. -/
theorem claim_C9 (up : Userpanel) (UID : Bytes) :
    getActiveUser up UID = getActiveUser up (pad32 UID) ∧
    delActiveUser up UID = delActiveUser up (pad32 UID) ∧
    (∀ uinfo : UserInfo, uinfo.UID = UID → UID ≠ [] →
      aGet up.db UID = none → aGet up.db (pad32 UID) = none → pad32 UID ≠ UID →
      aGet (addNewUser up uinfo).2.db UID = some (newUserBucket uinfo) ∧
      getUserInfo (addNewUser up uinfo).2.db (pad32 UID)
        = Res.err GoErr.userNotFound) := by
  refine ⟨?_, ?_, ?_⟩
  · unfold getActiveUser
    rw [pad32_pad32]
  · unfold delActiveUser
    rw [pad32_pad32]
  · intro uinfo huid hne hdb hdbp hnep
    subst huid
    have hrun : addNewUser up uinfo
        = (Res.ok (), { up with db := aPut up.db uinfo.UID (newUserBucket uinfo) }) := by
      unfold addNewUser
      rw [if_neg hne, hdb]
    constructor
    · rw [hrun]
      exact aGet_aPut_self _ _ _
    · rw [hrun]
      show getUserInfo (aPut up.db uinfo.UID (newUserBucket uinfo)) (pad32 uinfo.UID)
        = Res.err GoErr.userNotFound
      unfold getUserInfo
      rw [aGet_aPut_ne _ _ _ _ hnep, hdbp]

/-- Witness for the amended C9 at the short UID `[1]`. -/
theorem claim_C9_witness :
    getActiveUser demoPanel [1] = getActiveUser demoPanel (pad32 [1]) ∧
    aGet (addNewUser basePanel demoInfo).2.db [1] = some (newUserBucket demoInfo) ∧
    getUserInfo (addNewUser basePanel demoInfo).2.db (pad32 [1])
      = Res.err GoErr.userNotFound :=
  ⟨(claim_C9 demoPanel [1]).1,
    ((claim_C9 basePanel [1]).2.2 demoInfo rfl (by decide) (by decide) (by decide)
      (by decide)).1,
    ((claim_C9 basePanel [1]).2.2 demoInfo rfl (by decide) (by decide) (by decide)
      (by decide)).2⟩
